import Mathlib

/-!
Verification of the `DataLakeFoundations` nested stack
(`refarch/aws-native/common/common_cdk/foundations.py`).

The stack body is embedded as a pure `build` function over an explicit
state record (`FoundationsState`) together with an ordered trace of
construction events (`BuildEvent`), one event per resource-creating or
resource-mutating statement, in source order.  Library constructs that
the stack consumes but whose code is not part of the file
(`DataLakeCatalog`, `DataLakeStorage`, `AutoEmptyBucket`, the `Vpc`
construct) are modelled from the specification, each with a doc comment
saying so.  Fallible attribute accesses (reading `.key_id` on a possibly
absent encryption key) are embedded with `Except`.
-/

namespace Foundations

/-- A Python attribute-access fault, as raised when code dereferences an
attribute on `None` (for example `encryption_key.key_id` when the key is
absent) or reads a never-assigned private field through a property. -/
inductive PyError where
  | attributeError
deriving DecidableEq

/-- A Glue catalog database handle: the database name plus an optional
`location_uri`, unset until some statement assigns it. -/
structure GlueDatabase where
  databaseName : String
  locationUri : Option String := none
deriving DecidableEq

/-- An S3 bucket handle: the bucket name plus an optional encryption-key
handle, recorded as the key id the code reads via `.encryption_key.key_id`.
`none` embeds a Python `encryption_key` of `None`. -/
structure Bucket where
  bucketName : String
  encryptionKey : Option String := none
deriving DecidableEq

/-- A Lake Formation governed location, as registered by
`LakeFormationS3Location`: bucket name, object key, and KMS key id. -/
structure GovernedLocation where
  bucketName : String
  objectKey : String
  kmsKeyId : String
deriving DecidableEq

/-- The two subnet types the stack mentions (`SubnetType.PUBLIC` and
`SubnetType.PRIVATE_WITH_NAT`).  Modelled from the spec: the `Vpc`
construct itself is library code not in the file, and per the spec the
default virtual network provisions subnets of exactly these two types. -/
inductive SubnetType where
  | public
  | privateWithNat
deriving DecidableEq

/-- A subnet of the virtual network: an identifier plus its type. -/
structure Subnet where
  subnetId : Nat
  subnetType : SubnetType
deriving DecidableEq

/-- A virtual network: the list of subnets it provisions. -/
structure Vpc where
  subnets : List Subnet
deriving DecidableEq

/-- `vpc.select_subnets(subnet_type=t)`: the subnets of the network whose
type is `t`. -/
def selectSubnets (v : Vpc) (t : SubnetType) : List Subnet :=
  v.subnets.filter fun s => s.subnetType == t

/-- Modelled from the spec: the default network provisioned by the `Vpc`
construct (library code not in the file), partitioned by type into
public and private-with-NAT subnets across availability zones. -/
def defaultVpc : Vpc :=
  { subnets := [⟨0, .public⟩, ⟨1, .public⟩, ⟨2, .privateWithNat⟩, ⟨3, .privateWithNat⟩] }

/-- An IAM identity group handle. -/
structure IamGroup where
  groupName : String
deriving DecidableEq

/-- An IAM role handle (for the commented-out Lake Formation admin role). -/
structure Role where
  roleName : String
deriving DecidableEq

/-- Modelled from the spec: naming is derived from the account context by
the naming resolver, tier plus account id; raw-tier bucket name. -/
def rawBucketName (account : String) : String := "raw-" ++ account

/-- Modelled from the spec: clean-tier bucket name. -/
def cleanBucketName (account : String) : String := "clean-" ++ account

/-- Modelled from the spec: curated-tier (transform) bucket name. -/
def curatedBucketName (account : String) : String := "curated-" ++ account

/-- Logs bucket name, from the source: `'ara-logs-' + self.account`. -/
def logsBucketName (account : String) : String := "ara-logs-" ++ account

/-- Modelled from the spec: raw-tier catalog database name, derived
deterministically from the account context by the naming resolver. -/
def rawDatabaseName (account : String) : String := "db-raw-" ++ account

/-- Modelled from the spec: clean-tier catalog database name. -/
def cleanDatabaseName (account : String) : String := "db-clean-" ++ account

/-- Modelled from the spec: curated-tier catalog database name. -/
def curatedDatabaseName (account : String) : String := "db-curated-" ++ account

/-- Audit database name, from the source: `'ara_audit_data_' + self.account`. -/
def auditDatabaseName (account : String) : String := "ara_audit_data_" ++ account

/-- Admin group name, from the source: `group_name='ara-admins'`. -/
def adminGroupName : String := "ara-admins"

/-- Analysts group name, from the source: `group_name='ara-analysts'`. -/
def analystsGroupName : String := "ara-analysts"

/-- Developers group name, from the source: `group_name='ara-developers'`. -/
def developersGroupName : String := "ara-developers"

/-- Modelled from the spec: the encryption-key handle attached to the
raw bucket by the storage provisioner. -/
def rawKeyId (account : String) : String := "key-raw-" ++ account

/-- Modelled from the spec: the encryption-key handle of the clean bucket. -/
def cleanKeyId (account : String) : String := "key-clean-" ++ account

/-- Modelled from the spec: the encryption-key handle of the curated bucket. -/
def curatedKeyId (account : String) : String := "key-curated-" ++ account

/-- Modelled from the spec: `DataLakeCatalog` (library code not in the
file) creates the raw, clean and transform (curated) catalog databases,
none of them with a location URI set. -/
def dataLakeCatalog (account : String) : GlueDatabase × GlueDatabase × GlueDatabase :=
  ({ databaseName := rawDatabaseName account },
   { databaseName := cleanDatabaseName account },
   { databaseName := curatedDatabaseName account })

/-- Modelled from the spec: `DataLakeStorage` (library code not in the
file) creates the raw, clean and transform (curated) buckets, each
carrying an encryption-key reference. -/
def dataLakeStorage (account : String) : Bucket × Bucket × Bucket :=
  ({ bucketName := rawBucketName account, encryptionKey := some (rawKeyId account) },
   { bucketName := cleanBucketName account, encryptionKey := some (cleanKeyId account) },
   { bucketName := curatedBucketName account, encryptionKey := some (curatedKeyId account) })

/-- Modelled from the spec and the source comment: `AutoEmptyBucket`
(library code not in the file) creates a bucket by a construction path
that attaches no encryption-key handle, which is why the source notes
that registering it would fault on `encryption_key.key_id`. -/
def autoEmptyBucket (name : String) : Bucket :=
  { bucketName := name, encryptionKey := none }

/-- `LakeFormationS3Location(..., s3_location, kms_key_id=bucket.encryption_key.key_id)`:
evaluating the `kms_key_id` argument dereferences the encryption key of
the bucket with no presence check, so a bucket whose key handle is
absent raises an attribute-access fault; otherwise the governed
location is registered with an empty object key. -/
def lakeFormationS3Location (bucket : Bucket) : Except PyError GovernedLocation :=
  match bucket.encryptionKey with
  | none => .error .attributeError
  | some keyId =>
      .ok { bucketName := bucket.bucketName, objectKey := "", kmsKeyId := keyId }

/-- One build step of `DataLakeFoundations.__init__`, recorded in the
order the source statements execute. -/
inductive BuildEvent where
  | constructDatabase (databaseName : String)
  | constructBucket (bucketName : String) (encryptionKey : Option String)
  | auditTrailGlue (logBucket auditBucket auditDb auditTable : String)
  | setLocationUri (databaseName uri : String)
  | lakeFormationRegistration (bucketName : String)
  | constructVpc (subnetCount : Nat)
  | constructGroup (groupName : String)
deriving DecidableEq

/-- The state assembled by `DataLakeFoundations.__init__`: one field per
private backing field of the class.  `lfAdminRole` backs the
`lf_admin_role` property; its assignment is commented out in the
source, so a completed build leaves it unassigned (`none`). -/
structure FoundationsState where
  rawGlueDb : GlueDatabase
  cleanGlueDb : GlueDatabase
  curatedGlueDb : GlueDatabase
  auditGlueDb : GlueDatabase
  logsS3Bucket : Bucket
  rawS3Bucket : Bucket
  cleanS3Bucket : Bucket
  curatedS3Bucket : Bucket
  vpc : Vpc
  publicSubnets : List Subnet
  privateSubnets : List Subnet
  adminGroup : IamGroup
  analystsGroup : IamGroup
  developersGroup : IamGroup
  lfAdminRole : Option Role
deriving DecidableEq

/-- The body of `DataLakeFoundations.__init__`, statement by statement:
catalog databases, audit database, storage buckets, logs bucket, the
`AuditTrailGlue` wiring, the `location_uri` assignment on the raw
database (the source writes the literal `'s3:////'` before the bucket
name), the three `LakeFormationS3Location` registrations (each one
dereferencing the encryption key of its bucket and therefore fallible),
the virtual network with its two subnet selections, and the three IAM
groups.  Returns the final state and the event trace, or the first
fault. -/
def build (account : String) : Except PyError (FoundationsState × List BuildEvent) :=
  let catalogDbs := dataLakeCatalog account
  let rawDb := catalogDbs.1
  let cleanDb := catalogDbs.2.1
  let curatedDb := catalogDbs.2.2
  let auditDb : GlueDatabase := { databaseName := auditDatabaseName account }
  let storage := dataLakeStorage account
  let rawBucket := storage.1
  let cleanBucket := storage.2.1
  let curatedBucket := storage.2.2
  let logsBucket := autoEmptyBucket (logsBucketName account)
  let rawUri : String := "s3:////" ++ rawBucket.bucketName
  let rawDbLocated : GlueDatabase := { rawDb with locationUri := some rawUri }
  match lakeFormationS3Location rawBucket with
  | .error e => .error e
  | .ok _ =>
  match lakeFormationS3Location cleanBucket with
  | .error e => .error e
  | .ok _ =>
  match lakeFormationS3Location curatedBucket with
  | .error e => .error e
  | .ok _ =>
  let vpc := defaultVpc
  let publicSel := selectSubnets vpc .public
  let privateSel := selectSubnets vpc .privateWithNat
  .ok
    ({ rawGlueDb := rawDbLocated
       cleanGlueDb := cleanDb
       curatedGlueDb := curatedDb
       auditGlueDb := auditDb
       logsS3Bucket := logsBucket
       rawS3Bucket := rawBucket
       cleanS3Bucket := cleanBucket
       curatedS3Bucket := curatedBucket
       vpc := vpc
       publicSubnets := publicSel
       privateSubnets := privateSel
       adminGroup := { groupName := adminGroupName }
       analystsGroup := { groupName := analystsGroupName }
       developersGroup := { groupName := developersGroupName }
       lfAdminRole := none },
     [ .constructDatabase rawDb.databaseName,
       .constructDatabase cleanDb.databaseName,
       .constructDatabase curatedDb.databaseName,
       .constructDatabase auditDb.databaseName,
       .constructBucket rawBucket.bucketName rawBucket.encryptionKey,
       .constructBucket cleanBucket.bucketName cleanBucket.encryptionKey,
       .constructBucket curatedBucket.bucketName curatedBucket.encryptionKey,
       .constructBucket logsBucket.bucketName logsBucket.encryptionKey,
       .auditTrailGlue logsBucket.bucketName curatedBucket.bucketName
         auditDb.databaseName curatedBucket.bucketName,
       .setLocationUri rawDb.databaseName rawUri,
       .lakeFormationRegistration rawBucket.bucketName,
       .lakeFormationRegistration cleanBucket.bucketName,
       .lakeFormationRegistration curatedBucket.bucketName,
       .constructVpc vpc.subnets.length,
       .constructGroup adminGroupName,
       .constructGroup analystsGroupName,
       .constructGroup developersGroupName ])

/-- The state a successful build exposes, when the build succeeds. -/
def builtState (account : String) : Option FoundationsState :=
  (build account).toOption.map Prod.fst

/-- The bucket names passed to `LakeFormationS3Location`, in trace order. -/
def registrationAttempts (trace : List BuildEvent) : List String :=
  trace.filterMap fun e =>
    match e with
    | .lakeFormationRegistration b => some b
    | _ => none

/-- The `location_uri` assignments of the trace: target database name
paired with the assigned URI, in trace order. -/
def locationUriAssignments (trace : List BuildEvent) : List (String × String) :=
  trace.filterMap fun e =>
    match e with
    | .setLocationUri d u => some (d, u)
    | _ => none

/-- The group names constructed by the trace, in trace order. -/
def groupEvents (trace : List BuildEvent) : List String :=
  trace.filterMap fun e =>
    match e with
    | .constructGroup n => some n
    | _ => none

/-- The public accessors of `DataLakeFoundations`: one per `@property`
of the class, in source order.  The class defines no setter for any of
them and no other public operation. -/
inductive Accessor where
  | rawS3Bucket
  | cleanS3Bucket
  | curatedS3Bucket
  | rawGlueDb
  | cleanGlueDb
  | curatedGlueDb
  | auditGlueDb
  | logsS3Bucket
  | vpc
  | privateSubnetsSelection
  | publicSubnetsSelection
  | adminGroup
  | analystsGroup
  | developersGroup
  | lfAdminRole
deriving DecidableEq

/-- A handle returned by an accessor read. -/
inductive Handle where
  | bucket (b : Bucket)
  | database (d : GlueDatabase)
  | network (v : Vpc)
  | subnetSelection (s : List Subnet)
  | group (g : IamGroup)
  | role (r : Role)
deriving DecidableEq

/-- Reading an accessor: each property returns its private backing
field.  The `lf_admin_role` property reads a backing field whose only
assignment in the source is commented out; reading an unassigned
private field raises an `AttributeError` in Python, embedded here by
the `Option`-valued `lfAdminRole` field. -/
def readAccessor (f : FoundationsState) (a : Accessor) : Except PyError Handle :=
  match a with
  | .rawS3Bucket => .ok (.bucket f.rawS3Bucket)
  | .cleanS3Bucket => .ok (.bucket f.cleanS3Bucket)
  | .curatedS3Bucket => .ok (.bucket f.curatedS3Bucket)
  | .rawGlueDb => .ok (.database f.rawGlueDb)
  | .cleanGlueDb => .ok (.database f.cleanGlueDb)
  | .curatedGlueDb => .ok (.database f.curatedGlueDb)
  | .auditGlueDb => .ok (.database f.auditGlueDb)
  | .logsS3Bucket => .ok (.bucket f.logsS3Bucket)
  | .vpc => .ok (.network f.vpc)
  | .privateSubnetsSelection => .ok (.subnetSelection f.privateSubnets)
  | .publicSubnetsSelection => .ok (.subnetSelection f.publicSubnets)
  | .adminGroup => .ok (.group f.adminGroup)
  | .analystsGroup => .ok (.group f.analystsGroup)
  | .developersGroup => .ok (.group f.developersGroup)
  | .lfAdminRole =>
      match f.lfAdminRole with
      | some r => .ok (.role r)
      | none => .error .attributeError

/-- The interpreter of the public interface after construction: the
class exposes only property getters (no setter is defined for any
property), so every public operation is an accessor read; it returns
the post-state together with the read result. -/
def applyOp (f : FoundationsState) (a : Accessor) :
    FoundationsState × Except PyError Handle :=
  (f, readAccessor f a)

/-- Reading an accessor on the state exposed by a build of the given
account context. -/
def readBuilt (account : String) (a : Accessor) : Option (Except PyError Handle) :=
  (builtState account).map fun f => readAccessor f a

/-- The constant parts of the derived names: each context-dependent
name is one of these stems followed by the account id. -/
def nameStems : List String :=
  ["raw-", "clean-", "curated-", "ara-logs-",
   "db-raw-", "db-clean-", "db-curated-", "ara_audit_data_"]

/-- The context-independent derived names: the three group names. -/
def fixedNames : List String :=
  [adminGroupName, analystsGroupName, developersGroupName]

/-- Every name the build derives for the account context: the four
bucket names, the four catalog database names, and the three identity
group names. -/
def derivedNames (account : String) : List String :=
  [rawBucketName account, cleanBucketName account, curatedBucketName account,
   logsBucketName account, rawDatabaseName account, cleanDatabaseName account,
   curatedDatabaseName account, auditDatabaseName account,
   adminGroupName, analystsGroupName, developersGroupName]

/-- A valid account context: a twelve-character account identifier, as
in the account ids of the specification scenarios. -/
abbrev ValidAccount (account : String) : Prop := account.length = 12

theorem data_append (p q : String) : (p ++ q).data = p.data ++ q.data := by
  cases p; cases q; rfl

theorem length_append_eq (p q : String) : (p ++ q).length = p.length + q.length := by
  cases p with
  | mk dp =>
    cases q with
    | mk dq => exact List.length_append dp dq

theorem appendRightCancel {p q a : String} (h : p ++ a = q ++ a) : p = q := by
  cases p with
  | mk dp =>
    cases q with
    | mk dq =>
      cases a with
      | mk da =>
        have h2 : dp ++ da = dq ++ da := by
          have h3 := congrArg String.data h
          simpa [data_append] using h3
        exact congrArg String.mk (List.append_cancel_right h2)

theorem stem_append_ne {p q : String} (a : String) (h : p ≠ q) : p ++ a ≠ q ++ a :=
  fun he => h (appendRightCancel he)

theorem derivedNames_decompose (account : String) :
    derivedNames account = nameStems.map (· ++ account) ++ fixedNames := rfl

end Foundations

namespace Foundations

/-- The raw database location URI exposed by a successful build. -/
def builtRawLocationUri (account : String) : Option (Option String) :=
  (builtState account).map fun f => f.rawGlueDb.locationUri

/-- The raw bucket name exposed by a successful build. -/
def builtRawBucketName (account : String) : Option String :=
  (builtState account).map fun f => f.rawS3Bucket.bucketName

theorem selectSubnets_disjoint (v : Vpc) (s : Subnet)
    (h1 : s ∈ selectSubnets v .public) : s ∉ selectSubnets v .privateWithNat := by
  intro h2
  simp only [selectSubnets, List.mem_filter, beq_iff_eq] at h1 h2
  rw [h1.2] at h2
  exact SubnetType.noConfusion h2.2

theorem selectSubnets_cover (v : Vpc) (s : Subnet) :
    s ∈ v.subnets ↔ s ∈ selectSubnets v .public ∨ s ∈ selectSubnets v .privateWithNat := by
  simp only [selectSubnets, List.mem_filter, beq_iff_eq]
  constructor
  · intro hs
    cases h : s.subnetType with
    | public => exact Or.inl ⟨hs, rfl⟩
    | privateWithNat => exact Or.inr ⟨hs, rfl⟩
  · rintro (⟨hs, _⟩ | ⟨hs, _⟩) <;> exact hs

/-- Claim C1 (counterexample): at account `111122223333` the raw catalog
database location URI after a successful build is
`s3:////raw-111122223333`, which is not the string `storage://` followed
by the raw bucket name followed by `/`. -/
theorem raw_location_uri_counterexample :
    builtRawLocationUri "111122223333" = some (some "s3:////raw-111122223333") ∧
    builtRawBucketName "111122223333" = some "raw-111122223333" ∧
    some (some "s3:////raw-111122223333") ≠
      some (some ("storage://" ++ "raw-111122223333" ++ "/")) :=
  ⟨rfl, rfl, by decide⟩

/-- Claim C1 (amended): after a successful build, the raw catalog
database location URI equals the literal `s3:////` followed by the raw
bucket name, with no trailing slash, and it is assigned after the raw
bucket is constructed (construction event at index 4 of the trace,
assignment at index 9). -/
theorem raw_location_uri_after_bucket (account : String) :
    ∃ f t, build account = .ok (f, t) ∧
      f.rawGlueDb.locationUri = some ("s3:////" ++ f.rawS3Bucket.bucketName) ∧
      ∃ i j, i < j ∧
        t.get? i = some (.constructBucket f.rawS3Bucket.bucketName f.rawS3Bucket.encryptionKey) ∧
        t.get? j = some (.setLocationUri f.rawGlueDb.databaseName
          ("s3:////" ++ f.rawS3Bucket.bucketName)) :=
  ⟨_, _, rfl, rfl, 4, 9, by omega, rfl, rfl⟩

/-- Claim C2 (counterexample): the logs bucket carries no encryption-key
handle, and registering it is not a recorded skip but a failed
computation: the registrar faults instead of completing. -/
theorem registrar_missing_key_counterexample :
    (autoEmptyBucket (logsBucketName "111122223333")).encryptionKey = none ∧
    (lakeFormationS3Location (autoEmptyBucket (logsBucketName "111122223333"))).isOk = false :=
  ⟨rfl, rfl⟩

/-- Claim C2 (amended): for every bucket whose encryption-key handle is
absent, the governed-location registrar dereferences the absent key and
faults with an attribute error; no skip is detected or recorded. -/
theorem registrar_faults_on_missing_key (b : Bucket) (h : b.encryptionKey = none) :
    lakeFormationS3Location b = .error .attributeError := by
  simp [lakeFormationS3Location, h]

/-- Witness for the amended C2 theorem at a concrete bucket. -/
theorem registrar_faults_on_missing_key_witness :
    (Bucket.mk "bucket-without-key" none).encryptionKey = none ∧
    lakeFormationS3Location (Bucket.mk "bucket-without-key" none) =
      Except.error PyError.attributeError :=
  ⟨rfl, registrar_faults_on_missing_key (Bucket.mk "bucket-without-key" none) rfl⟩

/-- Claim C3: every build attempts governed-location registration for
exactly the raw, clean and curated buckets, in that order; the logs
bucket has no encryption-key handle and no registration is attempted
for it; the build completes without a fault. -/
theorem registrations_exactly_tiers (account : String) :
    ∃ f t, build account = .ok (f, t) ∧
      registrationAttempts t =
        [rawBucketName account, cleanBucketName account, curatedBucketName account] ∧
      f.logsS3Bucket.encryptionKey = none ∧
      f.logsS3Bucket.bucketName ∉ registrationAttempts t := by
  refine ⟨_, _, rfl, rfl, rfl, ?_⟩
  show logsBucketName account ∉
    [rawBucketName account, cleanBucketName account, curatedBucketName account]
  simp only [List.mem_cons, List.not_mem_nil, or_false, not_or]
  exact ⟨stem_append_ne account (by decide), stem_append_ne account (by decide),
    stem_append_ne account (by decide)⟩

/-- Claim C4: for every valid account context, the four bucket names,
the four catalog database names and the three identity group names are
pairwise distinct, and the derived names are a deterministic function
of the context. -/
theorem derived_names_distinct_and_deterministic (account : String)
    (h : ValidAccount account) :
    (derivedNames account).Nodup ∧
    ∀ account2, account2 = account → derivedNames account2 = derivedNames account := by
  constructor
  · rw [derivedNames_decompose]
    refine List.nodup_append.mpr ⟨?_, by decide, ?_⟩
    · exact List.Nodup.map (fun p q hpq => appendRightCancel hpq) (by decide)
    · intro x hx hx2
      rcases List.mem_map.mp hx with ⟨p, hp, rfl⟩
      have h2 : 4 ≤ p.length := by fin_cases hp <;> decide
      have h5 : (p ++ account).length = p.length + 12 := by rw [length_append_eq, h]
      have h6 : (p ++ account).length ≤ 14 := by
        simp only [fixedNames, adminGroupName, analystsGroupName, developersGroupName,
          List.mem_cons, List.not_mem_nil, or_false] at hx2
        rcases hx2 with h7 | h7 | h7 <;> rw [h7] <;> decide
      omega
  · intro account2 he
    rw [he]

/-- Witness for the C4 theorem at the account id of the specification
scenario. -/
theorem derived_names_distinct_witness :
    ValidAccount "111122223333" ∧ (derivedNames "111122223333").Nodup :=
  ⟨by decide, (derived_names_distinct_and_deterministic "111122223333" (by decide)).1⟩

/-- Claim C5: after a successful build, the public subnet selection and
the private-with-NAT subnet selection are the two type-filtered
selections of the virtual network, they are disjoint, and together they
cover every subnet the network provisions. -/
theorem subnet_selections_partition (account : String) :
    ∃ f t, build account = .ok (f, t) ∧
      f.publicSubnets = selectSubnets f.vpc .public ∧
      f.privateSubnets = selectSubnets f.vpc .privateWithNat ∧
      (∀ s, s ∈ f.publicSubnets → s ∉ f.privateSubnets) ∧
      (∀ s, s ∈ f.vpc.subnets ↔ s ∈ f.publicSubnets ∨ s ∈ f.privateSubnets) :=
  ⟨_, _, rfl, rfl, rfl,
    fun s h => selectSubnets_disjoint defaultVpc s h,
    fun s => selectSubnets_cover defaultVpc s⟩

/-- Claim C6: every build constructs exactly three identity groups,
named `ara-admins`, `ara-analysts` and `ara-developers` for the
administrators, analysts and developers, with no duplicate names. -/
theorem three_identity_groups (account : String) :
    ∃ f t, build account = .ok (f, t) ∧
      groupEvents t = [adminGroupName, analystsGroupName, developersGroupName] ∧
      (groupEvents t).length = 3 ∧
      (groupEvents t).Nodup ∧
      f.adminGroup.groupName = adminGroupName ∧
      f.analystsGroup.groupName = analystsGroupName ∧
      f.developersGroup.groupName = developersGroupName := by
  refine ⟨_, _, rfl, rfl, rfl, ?_, rfl, rfl, rfl⟩
  show ([adminGroupName, analystsGroupName, developersGroupName] : List String).Nodup
  decide

/-- Claim C7: the audit-trail binder is invoked (trace index 8) with the
logs bucket, the curated bucket and the audit database, each constructed
at an earlier trace index, and the audit table identity it receives is
the curated bucket name. -/
theorem audit_binder_arguments (account : String) :
    ∃ f t, build account = .ok (f, t) ∧
      t.get? 8 = some (.auditTrailGlue f.logsS3Bucket.bucketName f.curatedS3Bucket.bucketName
        f.auditGlueDb.databaseName f.curatedS3Bucket.bucketName) ∧
      (∃ i < 8, t.get? i =
        some (.constructBucket f.logsS3Bucket.bucketName f.logsS3Bucket.encryptionKey)) ∧
      (∃ i < 8, t.get? i =
        some (.constructBucket f.curatedS3Bucket.bucketName f.curatedS3Bucket.encryptionKey)) ∧
      (∃ i < 8, t.get? i = some (.constructDatabase f.auditGlueDb.databaseName)) :=
  ⟨_, _, rfl, rfl, ⟨7, by omega, rfl⟩, ⟨6, by omega, rfl⟩, ⟨3, by omega, rfl⟩⟩

/-- Claim C8 (counterexample): on the completed build for account
`111122223333` the `lf_admin_role` accessor read does not return a
build-assigned handle; it raises an attribute error. -/
theorem accessor_read_faults_counterexample :
    (builtState "111122223333").isSome = true ∧
    readBuilt "111122223333" .lfAdminRole = some (.error .attributeError) :=
  ⟨rfl, rfl⟩

/-- Claim C8 (amended): the public interface consists of accessor reads
only, and no operation changes the state; each of the fourteen
build-assigned accessors returns the handle assigned during the build,
while the `lf_admin_role` accessor, whose backing field is never
assigned, raises an attribute error. -/
theorem accessors_read_only (account : String) :
    (∀ f a, (applyOp f a).1 = f) ∧
    ∃ f t, build account = .ok (f, t) ∧
      readAccessor f .rawS3Bucket = .ok (.bucket f.rawS3Bucket) ∧
      readAccessor f .cleanS3Bucket = .ok (.bucket f.cleanS3Bucket) ∧
      readAccessor f .curatedS3Bucket = .ok (.bucket f.curatedS3Bucket) ∧
      readAccessor f .rawGlueDb = .ok (.database f.rawGlueDb) ∧
      readAccessor f .cleanGlueDb = .ok (.database f.cleanGlueDb) ∧
      readAccessor f .curatedGlueDb = .ok (.database f.curatedGlueDb) ∧
      readAccessor f .auditGlueDb = .ok (.database f.auditGlueDb) ∧
      readAccessor f .logsS3Bucket = .ok (.bucket f.logsS3Bucket) ∧
      readAccessor f .vpc = .ok (.network f.vpc) ∧
      readAccessor f .privateSubnetsSelection = .ok (.subnetSelection f.privateSubnets) ∧
      readAccessor f .publicSubnetsSelection = .ok (.subnetSelection f.publicSubnets) ∧
      readAccessor f .adminGroup = .ok (.group f.adminGroup) ∧
      readAccessor f .analystsGroup = .ok (.group f.analystsGroup) ∧
      readAccessor f .developersGroup = .ok (.group f.developersGroup) ∧
      readAccessor f .lfAdminRole = .error .attributeError :=
  ⟨fun _ _ => rfl, _, _, rfl, rfl, rfl, rfl, rfl, rfl, rfl, rfl, rfl, rfl, rfl, rfl,
    rfl, rfl, rfl, rfl⟩

/-- Claim C9: the raw database location URI is assigned exactly once in
the build trace, after the raw bucket is constructed, and no assignment
ever targets the clean, curated or audit database, whose location URIs
remain unset in the final state. -/
theorem raw_location_assigned_once (account : String) :
    ∃ f t, build account = .ok (f, t) ∧
      locationUriAssignments t =
        [(f.rawGlueDb.databaseName, "s3:////" ++ f.rawS3Bucket.bucketName)] ∧
      (∃ i j, i < j ∧
        t.get? i =
          some (.constructBucket f.rawS3Bucket.bucketName f.rawS3Bucket.encryptionKey) ∧
        t.get? j = some (.setLocationUri f.rawGlueDb.databaseName
          ("s3:////" ++ f.rawS3Bucket.bucketName))) ∧
      f.cleanGlueDb.locationUri = none ∧
      f.curatedGlueDb.locationUri = none ∧
      f.auditGlueDb.locationUri = none ∧
      (∀ u, (f.cleanGlueDb.databaseName, u) ∉ locationUriAssignments t) ∧
      (∀ u, (f.curatedGlueDb.databaseName, u) ∉ locationUriAssignments t) ∧
      (∀ u, (f.auditGlueDb.databaseName, u) ∉ locationUriAssignments t) := by
  refine ⟨_, _, rfl, rfl, ⟨4, 9, by omega, rfl, rfl⟩, rfl, rfl, rfl, ?_, ?_, ?_⟩
  · intro u h
    have h2 : (cleanDatabaseName account, u) ∈
        [(rawDatabaseName account, "s3:////" ++ rawBucketName account)] := h
    have h3 := congrArg Prod.fst (List.mem_singleton.mp h2)
    exact stem_append_ne account (by decide) h3
  · intro u h
    have h2 : (curatedDatabaseName account, u) ∈
        [(rawDatabaseName account, "s3:////" ++ rawBucketName account)] := h
    have h3 := congrArg Prod.fst (List.mem_singleton.mp h2)
    exact stem_append_ne account (by decide) h3
  · intro u h
    have h2 : (auditDatabaseName account, u) ∈
        [(rawDatabaseName account, "s3:////" ++ rawBucketName account)] := h
    have h3 := congrArg Prod.fst (List.mem_singleton.mp h2)
    exact stem_append_ne account (by decide) h3

/-- Claim C10: every completed build leaves the backing field of the
`lf_admin_role` accessor unassigned, so reading the accessor raises an
attribute error. -/
theorem lf_admin_role_never_assigned (account : String) :
    ∃ f t, build account = .ok (f, t) ∧ f.lfAdminRole = none ∧
      readAccessor f .lfAdminRole = .error .attributeError :=
  ⟨_, _, rfl, rfl, rfl⟩

end Foundations
